import Mathlib

/-!
Shallow embedding of the APsync repository: the `ArduinoConnector` class
(`src/ArduinoConnector.h`, `src/ArduinoConnector.cpp`) and the sketch
(`src/main.cpp`).

Side effects (serial output, LED writes, delays, callback invocations) are
reified as a list of `Event`s returned alongside the successor state.
Function pointers are modelled as opaque addresses (`CommandCallback`),
nullable via `Option`.  Serial input availability in `update` is modelled
as an `Option String`: `none` means `Serial.available() == 0`, `some raw`
means a full newline-terminated line `raw` was read by
`Serial.readStringUntil` (without the terminator).
-/

/-- Observable side effects of the program, in emission order. -/
inductive Event where
  /-- Models `digitalWrite(LED_BUILTIN, HIGH/LOW)` -/
  | ledWrite (high : Bool)
  /-- Models `delay(ms)` -/
  | delayMs (ms : Nat)
  /-- Models `Serial.println(s)`: one line transmitted on the serial transport -/
  | serialLine (s : String)
  /-- Models `userCallback(line)`: the registered command handler is invoked -/
  | dispatch (line : String)
deriving DecidableEq, Repr

/-- A command-callback function pointer, modelled by its address
(`typedef void (*CommandCallback)(String)` in `ArduinoConnector.h`). -/
structure CommandCallback where
  addr : Nat
deriving DecidableEq, Repr

/-- The `ArduinoConnector` class state (`ArduinoConnector.h`): the
configured username, the buffer for the most recently read line, the
authentication flag, and the nullable command-callback pointer. -/
structure ArduinoConnector where
  username : String
  incomingData : String
  authenticated : Bool
  userCallback : Option CommandCallback
deriving DecidableEq, Repr

/-- Modelled from the spec: the Arduino core's `String::trim()` (an external
collaborator, not part of this repository's sources), which "cleans up the
incoming data to remove extra spaces or newline characters": it removes
leading and trailing whitespace.  Defined structurally over the character
list so that it evaluates in the kernel. -/
def arduinoTrim (s : String) : String :=
  ⟨((s.data.dropWhile Char.isWhitespace).reverse.dropWhile Char.isWhitespace).reverse⟩

namespace ArduinoConnector

/-- The constructor `ArduinoConnector::ArduinoConnector(validUsername)`
(`ArduinoConnector.cpp` lines 3-8): stores the username, clears the
buffer, starts unauthenticated, with a NULL callback. -/
def init (validUsername : String) : ArduinoConnector :=
  { username := validUsername
    incomingData := ""
    authenticated := false
    userCallback := none }

/-- Method `ArduinoConnector::blinkLED` (`ArduinoConnector.cpp` lines 10-18):
three on/off LED cycles, each phase held 100 ms. -/
def blinkLED : List Event :=
  (List.range 3).flatMap fun _ =>
    [Event.ledWrite true, Event.delayMs 100, Event.ledWrite false, Event.delayMs 100]

/-- Method `ArduinoConnector::update` (`ArduinoConnector.cpp` lines 26-53).
If a line is available it is read, trimmed, stored in `incomingData`, and
run through the protocol if-chain: username challenge, AUTH_SUCCESS, then
dispatch when authenticated with a registered callback, else nothing. -/
def update (c : ArduinoConnector) (serialInput : Option String) :
    ArduinoConnector × List Event :=
  match serialInput with
  | none => (c, [])
  | some raw =>
    let line := arduinoTrim raw
    let c1 := { c with incomingData := line }
    if line = "Send your username:" then
      (c1, [Event.serialLine c1.username])
    else if line = "AUTH_SUCCESS" then
      ({ c1 with authenticated := true },
        blinkLED ++ [Event.serialLine "Authentication confirmed"])
    else if c1.authenticated && c1.userCallback.isSome then
      (c1, [Event.dispatch line])
    else
      (c1, [])

/-- Method `ArduinoConnector::isAuthenticated` (`ArduinoConnector.cpp` lines 55-57). -/
def isAuthenticated (c : ArduinoConnector) : Bool :=
  c.authenticated

/-- Method `ArduinoConnector::sendData` (`ArduinoConnector.cpp` lines 59-63):
transmit `data` only when authenticated; otherwise do nothing. -/
def sendData (c : ArduinoConnector) (data : String) :
    ArduinoConnector × List Event :=
  if c.authenticated then
    (c, [Event.serialLine data])
  else
    (c, [])

/-- Method `ArduinoConnector::setCommandCallback` (`ArduinoConnector.cpp`
lines 65-67): overwrite the callback slot (a NULL pointer is `none`). -/
def setCommandCallback (c : ArduinoConnector) (callback : Option CommandCallback) :
    ArduinoConnector :=
  { c with userCallback := callback }

end ArduinoConnector

/-- One public operation on the connector, for stating properties over
arbitrary operation sequences. -/
inductive Op where
  | update (serialInput : Option String)
  | sendData (data : String)
  | setCommandCallback (callback : Option CommandCallback)
  | isAuthenticated
deriving Repr

/-- State transition of one operation (its events discarded). -/
def step (c : ArduinoConnector) (op : Op) : ArduinoConnector :=
  match op with
  | .update i => (c.update i).1
  | .sendData d => (c.sendData d).1
  | .setCommandCallback cb => c.setCommandCallback cb
  | .isAuthenticated => c

/-- Run a sequence of operations from a state. -/
def run (c : ArduinoConnector) (ops : List Op) : ArduinoConnector :=
  ops.foldl step c

/-- The modulus of `unsigned long` on the Arduino target (32 bits). -/
def ULONG_MOD : Nat := 2 ^ 32

/-- Unsigned 32-bit subtraction, as computed by `millis() - lastSendTime`
on `unsigned long` operands (both `< ULONG_MOD`). -/
def usub32 (a b : Nat) : Nat := (a + ULONG_MOD - b) % ULONG_MOD

/-- Modelled from the spec: the Arduino core primitive `random(min, max)`
(an external collaborator, not part of this repository's sources), which
returns a value in `[min, max)` — here `min + (raw mod (max - min))` for a
raw pseudo-random generator value `raw`. -/
def arduinoRandom (lo hi raw : Nat) : Nat := lo + raw % (hi - lo)

/-- Constant for `static unsigned long lastSendTime = 0` (`main.cpp` line 28): the
periodic-emission timer starts at 0. -/
def lastSendTimeInit : Nat := 0

/-- The periodic emitter inside `loop()` (`main.cpp` lines 26-34): when
`isAuthenticated()` and more than 5000 ms have elapsed since
`lastSendTime` (unsigned arithmetic), draw `random(1, 100)`, send it as a
decimal string through `sendData`, and set `lastSendTime` to the current
time.  The two `millis()` calls of one iteration are modelled as the same
instant `now`.  Returns the new `lastSendTime` and the emitted events. -/
def loopEmitter (c : ArduinoConnector) (lastSendTime now rawRandom : Nat) :
    Nat × List Event :=
  if c.isAuthenticated then
    if usub32 now lastSendTime > 5000 then
      let randomNum := arduinoRandom 1 100 rawRandom
      (now, (c.sendData (toString randomNum)).2)
    else
      (lastSendTime, [])
  else
    (lastSendTime, [])

/-- Function `handleCommand` from `main.cpp` lines 6-12: on `"SEND_RANDOM"`, reply
`Random: <n>` with `n = random(1, 100)` through the transmit gate. -/
def handleCommand (c : ArduinoConnector) (command : String) (rawRandom : Nat) :
    List Event :=
  if command = "SEND_RANDOM" then
    (c.sendData ("Random: " ++ toString (arduinoRandom 1 100 rawRandom))).2
  else
    []

/-- A sample unauthenticated connector, as constructed in `main.cpp`
(`ArduinoConnector connector("Venus")`). -/
def unauthConn : ArduinoConnector :=
  { username := "Venus", incomingData := "", authenticated := false, userCallback := none }

/-- A sample connector after authentication, with a handler registered
(as `setup()` in `main.cpp` registers `handleCommand`). -/
def authConn : ArduinoConnector :=
  { username := "Venus", incomingData := "", authenticated := true,
    userCallback := some ⟨0⟩ }

/-- Any single operation preserves `authenticated = true`: no branch of any
method ever assigns `false` to the flag. -/
theorem step_authenticated_mono (c : ArduinoConnector) (op : Op)
    (h : c.authenticated = true) : (step c op).authenticated = true := by
  cases op with
  | update i =>
    cases i with
    | none => exact h
    | some raw =>
      simp only [step, ArduinoConnector.update]
      split_ifs <;> first | rfl | exact h
  | sendData d =>
    simp only [step, ArduinoConnector.sendData]
    split <;> exact h
  | setCommandCallback cb => exact h
  | isAuthenticated => exact h

/-- C1: for every line processed by `update`, the registered command handler
is invoked only when `authenticated = true` at the time the line is
processed; in particular a `"SEND_RANDOM"` line fed before `"AUTH_SUCCESS"`
(i.e. while unauthenticated) never results in a handler invocation. -/
theorem C1_dispatch_requires_auth (c : ArduinoConnector) (raw l : String) :
    (Event.dispatch l ∈ (c.update (some raw)).2 → c.authenticated = true) ∧
    (c.authenticated = false → Event.dispatch l ∉ (c.update (some "SEND_RANDOM")).2) := by
  constructor
  · intro h
    simp only [ArduinoConnector.update] at h
    split_ifs at h with h1 h2 h3
    · simp at h
    · simp [ArduinoConnector.blinkLED] at h
    · exact ((Bool.and_eq_true _ _).mp h3).1
    · simp at h
  · intro hauth h
    simp only [ArduinoConnector.update] at h
    split_ifs at h with h1 h2 h3
    · simp at h
    · simp [ArduinoConnector.blinkLED] at h
    · exact absurd ((Bool.and_eq_true _ _).mp h3).1 (by simp [hauth])
    · simp at h

/-- Witness for C1 at concrete inputs. -/
theorem C1_dispatch_requires_auth_witness :
    authConn.authenticated = true ∧
    Event.dispatch "cmd" ∉ (unauthConn.update (some "SEND_RANDOM")).2 :=
  ⟨(C1_dispatch_requires_auth authConn "cmd" "cmd").1 (by decide),
   (C1_dispatch_requires_auth unauthConn "SEND_RANDOM" "cmd").2 rfl⟩

/-- C2: `authenticated` starts `false` at construction and is monotone:
for every sequence of operations (update with any input, sendData,
setCommandCallback, isAuthenticated), once it is `true` it stays `true`. -/
theorem C2_authenticated_monotone :
    (∀ u, (ArduinoConnector.init u).authenticated = false) ∧
    (∀ (c : ArduinoConnector) (ops : List Op),
      c.authenticated = true → (run c ops).authenticated = true) := by
  refine ⟨fun u => rfl, fun c ops h => ?_⟩
  induction ops generalizing c with
  | nil => exact h
  | cons op ops ih => exact ih _ (step_authenticated_mono c op h)

/-- Witness for C2 at a concrete state and operation sequence. -/
theorem C2_authenticated_monotone_witness :
    authConn.authenticated = true ∧
    (run authConn [Op.update (some "SEND_RANDOM"), Op.sendData "d",
      Op.setCommandCallback none, Op.isAuthenticated,
      Op.update (some "AUTH_SUCCESS")]).authenticated = true :=
  ⟨rfl, C2_authenticated_monotone.2 authConn _ rfl⟩

/-- C3: `sendData data` transmits `data` on the serial transport iff
`authenticated = true`; when `false` the call produces zero output (the
model is total, so no error is raised: a silent no-op). -/
theorem C3_sendData_gate (c : ArduinoConnector) (data : String) :
    ((c.sendData data).2 = [Event.serialLine data] ↔ c.authenticated = true) ∧
    ((c.sendData data).2 = [] ↔ c.authenticated = false) := by
  cases hc : c.authenticated <;> simp [ArduinoConnector.sendData, hc]

/-- Witness for C3 at concrete states. -/
theorem C3_sendData_gate_witness :
    (authConn.sendData "x").2 = [Event.serialLine "x"] ∧
    (unauthConn.sendData "x").2 = [] :=
  ⟨(C3_sendData_gate authConn "x").1.mpr rfl,
   (C3_sendData_gate unauthConn "x").2.mpr rfl⟩

/-- C4: for every prior state, processing a line that trims to
`"Send your username:"` emits exactly the configured username as the only
reply, leaves `authenticated` unchanged, and invokes no handler. -/
theorem C4_username_challenge (c : ArduinoConnector) (raw : String)
    (h : arduinoTrim raw = "Send your username:") :
    (c.update (some raw)).2 = [Event.serialLine c.username] ∧
    (c.update (some raw)).1.authenticated = c.authenticated ∧
    ∀ l, Event.dispatch l ∉ (c.update (some raw)).2 := by
  simp [ArduinoConnector.update, h]

/-- Witness for C4 at a concrete (already-authenticated) state. -/
theorem C4_username_challenge_witness :
    arduinoTrim "Send your username:" = "Send your username:" ∧
    ((authConn.update (some "Send your username:")).2 =
        [Event.serialLine authConn.username] ∧
      (authConn.update (some "Send your username:")).1.authenticated =
        authConn.authenticated ∧
      ∀ l, Event.dispatch l ∉ (authConn.update (some "Send your username:")).2) :=
  ⟨by decide, C4_username_challenge authConn "Send your username:" (by decide)⟩

/-- C5: processing `"AUTH_SUCCESS"` is idempotent on state — after one or
two such calls `authenticated = true` and the second call leaves the state
unchanged — and each call (not only the first) emits the full blink pattern
followed by the confirmation line `"Authentication confirmed"`. -/
theorem C5_auth_success_idempotent (c : ArduinoConnector) :
    ((c.update (some "AUTH_SUCCESS")).1.authenticated = true) ∧
    (((c.update (some "AUTH_SUCCESS")).1.update (some "AUTH_SUCCESS")).1 =
      (c.update (some "AUTH_SUCCESS")).1) ∧
    ((c.update (some "AUTH_SUCCESS")).2 =
      ArduinoConnector.blinkLED ++ [Event.serialLine "Authentication confirmed"]) ∧
    (((c.update (some "AUTH_SUCCESS")).1.update (some "AUTH_SUCCESS")).2 =
      ArduinoConnector.blinkLED ++ [Event.serialLine "Authentication confirmed"]) :=
  ⟨rfl, rfl, rfl, rfl⟩

/-- C9: a call to `update` with no line available does nothing, and a call
that processes one line produces the events of exactly one of the three
protocol actions (username reply, authentication confirmation with blink,
handler dispatch) or nothing; in particular the username response and the
success acknowledgment never both occur in the same tick. -/
theorem C9_one_action_per_tick (c : ArduinoConnector) (raw : String) :
    ((c.update none).2 = [] ∧ (c.update none).1 = c) ∧
    ((c.update (some raw)).2 = [Event.serialLine c.username] ∨
     (c.update (some raw)).2 =
       ArduinoConnector.blinkLED ++ [Event.serialLine "Authentication confirmed"] ∨
     (c.update (some raw)).2 = [Event.dispatch (arduinoTrim raw)] ∨
     (c.update (some raw)).2 = []) := by
  refine ⟨⟨rfl, rfl⟩, ?_⟩
  simp only [ArduinoConnector.update]
  split_ifs <;> simp

/-- C6: in the periodic emitter of the main loop, given
`authenticated = true` and a monotonic clock (`lastSendTime ≤ now`, with
the elapsed time representable in `unsigned long`): no telemetry value is
emitted unless more than 5000 ms have elapsed since the last emission;
when one is emitted, exactly one value is produced, it lies in `[1, 100)`
(1 to 99 inclusive), and `lastSendTime` is set to the current time. -/
theorem C6_periodic_emitter (c : ArduinoConnector) (last now raw : Nat)
    (hauth : c.authenticated = true) (hmono : last ≤ now)
    (hrange : now - last < ULONG_MOD) :
    (now - last ≤ 5000 → loopEmitter c last now raw = (last, [])) ∧
    (5000 < now - last →
      ∃ v, 1 ≤ v ∧ v < 100 ∧
        loopEmitter c last now raw = (now, [Event.serialLine (toString v)])) := by
  have husub : usub32 now last = now - last := by
    have h1 : now + ULONG_MOD - last = (now - last) + ULONG_MOD := by omega
    rw [usub32, h1, Nat.add_mod_right, Nat.mod_eq_of_lt hrange]
  constructor
  · intro hle
    have hcond : ¬ usub32 now last > 5000 := by rw [husub]; omega
    simp [loopEmitter, ArduinoConnector.isAuthenticated, hauth, hcond]
  · intro hgt
    have hcond : usub32 now last > 5000 := by rw [husub]; exact hgt
    refine ⟨arduinoRandom 1 100 raw, Nat.le_add_right 1 _, ?_, ?_⟩
    · have := Nat.mod_lt raw (show 0 < 99 by norm_num)
      simp only [arduinoRandom]
      omega
    · simp [loopEmitter, ArduinoConnector.isAuthenticated, hauth, hcond,
        ArduinoConnector.sendData]

/-- Witness for C6: authenticated, 6000 ms elapsed from the initial timer. -/
theorem C6_periodic_emitter_witness :
    (authConn.authenticated = true ∧ lastSendTimeInit ≤ 6000 ∧
      6000 - lastSendTimeInit < ULONG_MOD ∧ 5000 < 6000 - lastSendTimeInit) ∧
    (∃ v, 1 ≤ v ∧ v < 100 ∧
      loopEmitter authConn lastSendTimeInit 6000 7 =
        (6000, [Event.serialLine (toString v)])) :=
  ⟨⟨rfl, by decide, by decide, by decide⟩,
   (C6_periodic_emitter authConn lastSendTimeInit 6000 7 rfl (by decide)
     (by decide)).2 (by decide)⟩

/-- Counterexample to C7 as stated: an unrecognized line processed while
unauthenticated produces no transmission, but it is not free of state
change — the `incomingData` member is overwritten with the line. -/
theorem C7_counterexample :
    (unauthConn.update (some "hello")).2 = [] ∧
    (unauthConn.update (some "hello")).1 ≠ unauthConn := by
  refine ⟨rfl, by decide⟩

/-- C7 (amended): for every line whose trimmed form is none of the
recognized protocol literals, if `authenticated = false` then `update`
produces no transmission (and no dispatch, no events at all) and changes
no state other than the transient `incomingData` buffer, which is
overwritten with the trimmed line. -/
theorem C7_unrecognized_unauth_frame (c : ArduinoConnector) (raw : String)
    (hauth : c.authenticated = false)
    (h1 : arduinoTrim raw ≠ "Send your username:")
    (h2 : arduinoTrim raw ≠ "AUTH_SUCCESS") :
    (c.update (some raw)).2 = [] ∧
    (c.update (some raw)).1 = { c with incomingData := arduinoTrim raw } := by
  simp [ArduinoConnector.update, h1, h2, hauth]

/-- Witness for C7 (amended) at a concrete state and line. -/
theorem C7_unrecognized_unauth_frame_witness :
    (unauthConn.authenticated = false ∧
      arduinoTrim "SEND_RANDOM" ≠ "Send your username:" ∧
      arduinoTrim "SEND_RANDOM" ≠ "AUTH_SUCCESS") ∧
    ((unauthConn.update (some "SEND_RANDOM")).2 = [] ∧
      (unauthConn.update (some "SEND_RANDOM")).1 =
        { unauthConn with incomingData := arduinoTrim "SEND_RANDOM" }) :=
  ⟨⟨rfl, by decide, by decide⟩,
   C7_unrecognized_unauth_frame unauthConn "SEND_RANDOM" rfl (by decide) (by decide)⟩

/-- On a line matching neither protocol literal, `update` stores the
trimmed line and either dispatches it (when authenticated with a callback)
or does nothing. -/
theorem update_unrecognized (c : ArduinoConnector) (raw : String)
    (h1 : arduinoTrim raw ≠ "Send your username:")
    (h2 : arduinoTrim raw ≠ "AUTH_SUCCESS") :
    c.update (some raw) =
      if c.authenticated && c.userCallback.isSome then
        ({ c with incomingData := arduinoTrim raw },
          [Event.dispatch (arduinoTrim raw)])
      else
        ({ c with incomingData := arduinoTrim raw }, []) := by
  simp [ArduinoConnector.update, h1, h2]

/-- Counterexample to C8 as stated: when authenticated with a handler
registered, the empty line does not fall to the Ignore branch — it is
forwarded to the handler (a protocol action fires). -/
theorem C8_counterexample :
    (authConn.update (some "")).2 = [Event.dispatch ""] ∧
    (authConn.update (some "")).2 ≠ [] := by
  refine ⟨rfl, by decide⟩

/-- C8 (amended): a line that trims to the empty string matches no literal
token and never produces a serial reply nor changes `authenticated`; it is
ignored when unauthenticated or when no handler is registered, but when
`authenticated = true` and a handler is registered it is dispatched to the
handler with the empty string. -/
theorem C8_empty_line (c : ArduinoConnector) (raw : String)
    (h : arduinoTrim raw = "") :
    ((c.update (some raw)).1.authenticated = c.authenticated) ∧
    (∀ s, Event.serialLine s ∉ (c.update (some raw)).2) ∧
    (c.authenticated = false ∨ c.userCallback = none →
      (c.update (some raw)).2 = []) ∧
    (c.authenticated = true → c.userCallback.isSome = true →
      (c.update (some raw)).2 = [Event.dispatch ""]) := by
  have h1 : arduinoTrim raw ≠ "Send your username:" := by rw [h]; decide
  have h2 : arduinoTrim raw ≠ "AUTH_SUCCESS" := by rw [h]; decide
  have he := update_unrecognized c raw h1 h2
  refine ⟨?_, ?_, ?_, ?_⟩
  · rw [he]
    cases hab : (c.authenticated && c.userCallback.isSome) <;> simp [hab]
  · intro s
    rw [he]
    cases hab : (c.authenticated && c.userCallback.isSome) <;> simp [hab]
  · intro hd
    have hcond : (c.authenticated && c.userCallback.isSome) = false := by
      cases hd with
      | inl hf => simp [hf]
      | inr hn => simp [hn]
    rw [he, hcond]
    simp
  · intro ha hcb
    rw [he]
    simp [ha, hcb, h]

/-- Witness for C8 (amended) at a concrete authenticated state. -/
theorem C8_empty_line_witness :
    arduinoTrim "" = "" ∧
    (((authConn.update (some "")).1.authenticated = authConn.authenticated) ∧
      (∀ s, Event.serialLine s ∉ (authConn.update (some "")).2) ∧
      (authConn.authenticated = false ∨ authConn.userCallback = none →
        (authConn.update (some "")).2 = []) ∧
      (authConn.authenticated = true → authConn.userCallback.isSome = true →
        (authConn.update (some "")).2 = [Event.dispatch ""])) :=
  ⟨rfl, C8_empty_line authConn "" rfl⟩

/-- C10: `sendData` never changes any connector state (username,
authenticated, incomingData, userCallback), whether or not it transmits. -/
theorem C10_sendData_pure (c : ArduinoConnector) (data : String) :
    (c.sendData data).1 = c ∧
    (c.sendData data).1.username = c.username ∧
    (c.sendData data).1.authenticated = c.authenticated ∧
    (c.sendData data).1.incomingData = c.incomingData ∧
    (c.sendData data).1.userCallback = c.userCallback := by
  have h : (c.sendData data).1 = c := by
    simp only [ArduinoConnector.sendData]
    split_ifs <;> rfl
  exact ⟨h, by rw [h], by rw [h], by rw [h], by rw [h]⟩
